import Mathlib

/-!
Shallow embedding of `src/clients/python/example.py` from the mddb
repository: a demonstration gRPC client that connects to a fixed
address and issues five remote operations (Add, Get, Search, Stats,
Backup) in sequence, printing results, with a two-branch exception
guard around `main()`.

The server side and the generated protobuf/stub code are not part of
the repository sources; the server is modelled as an oracle (`Server`)
mapping each request to either a response or a raised exception, and
the message shapes follow the interface table of the specification.
-/

/-- Modelled from the spec: `mddb_pb2.MetaValues`, a set of string
values for one metadata field (the generated protobuf code is not in
the sources). -/
structure MetaValues where
  values : List String
deriving DecidableEq, Repr

/-- Modelled from the spec: the Add request message, fields
collection, key, lang, meta (map of string to set-of-string), and
content_md. -/
structure AddRequest where
  collection : String
  key : String
  lang : String
  meta : List (String × MetaValues)
  content_md : String
deriving DecidableEq, Repr

/-- Modelled from the spec: the Get request message, fields
collection, key, lang, and env (map of string to string). -/
structure GetRequest where
  collection : String
  key : String
  lang : String
  env : List (String × String)
deriving DecidableEq, Repr

/-- Modelled from the spec: the Search request message, fields
collection, filter_meta, sort, asc, and limit. -/
structure SearchRequest where
  collection : String
  filter_meta : List (String × MetaValues)
  sort : String
  asc : Bool
  limit : Nat
deriving DecidableEq, Repr

/-- Modelled from the spec: the Stats request message, which carries
no fields. -/
structure StatsRequest where
deriving DecidableEq, Repr

/-- Modelled from the spec: the Backup request message, single field
`to` (destination path). -/
structure BackupRequest where
  «to» : String
deriving DecidableEq, Repr

/-- Modelled from the spec: a document response, with the fields the
example reads (id, added_at, key, lang, content_md). -/
structure Document where
  id : String
  added_at : String
  key : String
  lang : String
  content_md : String
deriving DecidableEq, Repr

/-- Modelled from the spec: per-collection statistics (name, document
count, revision count). -/
structure CollStats where
  name : String
  document_count : Nat
  revision_count : Nat
deriving DecidableEq, Repr

/-- Modelled from the spec: the Stats response message. -/
structure StatsResponse where
  database_path : String
  database_size : Nat
  mode : String
  total_documents : Nat
  total_revisions : Nat
  collections : List CollStats
deriving DecidableEq, Repr

/-- Modelled from the spec: the Search response message (a list of
documents). -/
structure SearchResponse where
  documents : List Document
deriving DecidableEq, Repr

/-- Modelled from the spec: the Backup response message (the backup
path). -/
structure BackupResponse where
  backup : String
deriving DecidableEq, Repr

/-- A request message sent over the channel, tagged by operation. -/
inductive Request where
  | add : AddRequest → Request
  | get : GetRequest → Request
  | search : SearchRequest → Request
  | stats : StatsRequest → Request
  | backup : BackupRequest → Request
deriving DecidableEq, Repr

/-- An exception raised during a remote call: either a
`grpc.RpcError` carrying a status code and details, or any other
Python exception carrying its message. -/
inductive Exc where
  | rpcError : String → String → Exc
  | other : String → Exc
deriving DecidableEq, Repr

/-- The remote server, as an oracle: each operation either returns a
typed response or raises an exception. -/
structure Server where
  onAdd : AddRequest → Except Exc Document
  onGet : GetRequest → Except Exc Document
  onSearch : SearchRequest → Except Exc SearchResponse
  onStats : StatsRequest → Except Exc StatsResponse
  onBackup : BackupRequest → Except Exc BackupResponse

/-- The fixed address the script connects to
(`grpc.insecure_channel('localhost:11024')`). -/
def serverAddress : String := "localhost:11024"

/-- The Add request built in the script (lines 24 to 34). -/
def addReq : AddRequest :=
  { collection := "blog"
    key := "python-example"
    lang := "en_US"
    meta := [("category", ⟨["tutorial", "python"]⟩),
             ("author", ⟨["Python Developer"]⟩),
             ("tags", ⟨["grpc", "api", "example"]⟩)]
    content_md := "# Python gRPC Example\n\nThis document was created using the Python client!" }

/-- The Get request built in the script (lines 43 to 48). -/
def getReq : GetRequest :=
  { collection := "blog"
    key := "python-example"
    lang := "en_US"
    env := [("year", "2024"), ("language", "Python")] }

/-- The Search request built in the script (lines 57 to 65). -/
def searchReq : SearchRequest :=
  { collection := "blog"
    filter_meta := [("category", ⟨["tutorial"]⟩)]
    sort := "updatedAt"
    asc := false
    limit := 10 }

/-- The Stats request built in the script (line 75): no fields. -/
def statsReq : StatsRequest := {}

/-- The Backup request built in the script (lines 95 to 97). -/
def backupReq : BackupRequest := { «to» := "python-backup.db" }

/-- The five request messages of the script in program order. -/
def fixedRequests : List Request :=
  [Request.add addReq, Request.get getReq, Request.search searchReq,
   Request.stats statsReq, Request.backup backupReq]

/-- Python string slicing `s[:n]`: the first `n` characters, or the
whole string when it is shorter (never an error). Embeds the slice
`doc.content_md[:50]` on line 50. -/
def pySliceTo (s : String) (n : Nat) : String := ⟨s.data.take n⟩

/-- Observable trace of one execution of `main()`:
the channels opened (address strings), the requests sent in order,
whether `channel.close()` ran, the exception escaping `main` if any,
and the content preview computed on line 50 when Get succeeded. -/
structure MainTrace where
  channels : List String
  sent : List Request
  closed : Bool
  exc : Option Exc
  preview : Option String
deriving DecidableEq, Repr

/-- The execution of `main()` (lines 12 to 102) against a given
server: open one channel to `serverAddress`, then call Add, Get,
Search, Stats, Backup in order; the first raised exception aborts the
remaining calls and escapes `main` before `channel.close()` is
reached. -/
def mainTrace (srv : Server) : MainTrace :=
  match srv.onAdd addReq with
  | .error e =>
      ⟨[serverAddress], [Request.add addReq], false, some e, none⟩
  | .ok _ =>
    match srv.onGet getReq with
    | .error e =>
        ⟨[serverAddress], [Request.add addReq, Request.get getReq],
         false, some e, none⟩
    | .ok doc =>
      let pv := pySliceTo doc.content_md 50
      match srv.onSearch searchReq with
      | .error e =>
          ⟨[serverAddress],
           [Request.add addReq, Request.get getReq, Request.search searchReq],
           false, some e, some pv⟩
      | .ok _ =>
        match srv.onStats statsReq with
        | .error e =>
            ⟨[serverAddress],
             [Request.add addReq, Request.get getReq, Request.search searchReq,
              Request.stats statsReq],
             false, some e, some pv⟩
        | .ok _ =>
          match srv.onBackup backupReq with
          | .error e =>
              ⟨[serverAddress], fixedRequests, false, some e, some pv⟩
          | .ok _ =>
              ⟨[serverAddress], fixedRequests, true, none, some pv⟩

/-- The two except clauses of the `__main__` guard, in order. -/
inductive Handler where
  | rpcHandler
  | excHandler
deriving DecidableEq, Repr

/-- Python `str(e)` for an exception, abstracted: the message for a
generic exception; for an RpcError the gRPC library renders code and
details (exact format abstracted, unreachable through `dispatchExc`
since the RpcError clause comes first). -/
def excStr : Exc → String
  | .rpcError c d => c ++ " - " ++ d
  | .other m => m

/-- One except clause applied to an exception: `none` when the clause
does not match the exception type, otherwise the line it prints.
`except grpc.RpcError` matches only RpcError; `except Exception`
matches every exception. -/
def runHandler : Handler → Exc → Option String
  | .rpcHandler, .rpcError c d => some ("❌ gRPC Error: " ++ c ++ " - " ++ d)
  | .rpcHandler, .other _ => none
  | .excHandler, e => some ("❌ Error: " ++ excStr e)

/-- The clause order of the `__main__` guard: the RpcError clause is
written before the generic Exception clause. -/
def handlerOrder : List Handler := [Handler.rpcHandler, Handler.excHandler]

/-- Python clause dispatch: the clauses are tried in order and the
first one matching the exception type handles it. -/
def dispatchExc : List Handler → Exc → Option (Handler × String)
  | [], _ => none
  | h :: hs, e =>
    match runHandler h e with
    | some s => some (h, s)
    | none => dispatchExc hs e

/-- The whole script: run `main`, then apply the except clauses of
the `__main__` guard to the exception, if one escaped. -/
def script (srv : Server) : MainTrace × Option (Handler × String) :=
  let t := mainTrace srv
  (t, match t.exc with
      | none => none
      | some e => dispatchExc handlerOrder e)

/-- Every call succeeded: the property of a run in which the server
returned a response to each of the five requests. -/
def allOk (srv : Server) : Prop :=
  (∃ d, srv.onAdd addReq = Except.ok d) ∧
  (∃ d, srv.onGet getReq = Except.ok d) ∧
  (∃ r, srv.onSearch searchReq = Except.ok r) ∧
  (∃ r, srv.onStats statsReq = Except.ok r) ∧
  (∃ r, srv.onBackup backupReq = Except.ok r)

/-- A sample document used by the concrete test servers. -/
def sampleDoc : Document :=
  { id := "doc-1", added_at := "2024-01-01T00:00:00Z",
    key := "python-example", lang := "en_US",
    content_md := "# Python gRPC Example" }

/-- Sample server statistics used by the concrete test servers. -/
def sampleStats : StatsResponse :=
  { database_path := "/data/mddb.db", database_size := 2048,
    mode := "normal", total_documents := 1, total_revisions := 1,
    collections := [⟨"blog", 1, 1⟩] }

/-- A server on which every call succeeds. -/
def okServer : Server :=
  { onAdd := fun _ => .ok sampleDoc
    onGet := fun _ => .ok sampleDoc
    onSearch := fun _ => .ok ⟨[sampleDoc]⟩
    onStats := fun _ => .ok sampleStats
    onBackup := fun _ => .ok ⟨"python-backup.db"⟩ }

/-- A second all-success server whose responses differ from
`okServer`. -/
def okServer2 : Server :=
  { okServer with
    onGet := fun _ => .ok { sampleDoc with content_md := "different body" } }

/-- A server whose Add call raises an RpcError. -/
def badAddServer : Server :=
  { okServer with
    onAdd := fun _ => .error (.rpcError "UNAVAILABLE" "failed to connect") }

/-- A server whose Get call raises a generic exception. -/
def badGetServer : Server :=
  { okServer with
    onGet := fun _ => .error (.other "boom") }

/-- Modelled from the spec: the protobuf keyword constructor
`GetRequest(collection=..., key=..., lang=..., env=...)` used on
lines 43 to 48 (the generated message code is not in the sources):
each field of the built message is set to the argument supplied,
unchanged. -/
def buildGetRequest (collection key lang : String)
    (env : List (String × String)) : GetRequest :=
  { collection := collection, key := key, lang := lang, env := env }

/-- Modelled from the spec: the generated stub method `MDDBStub.Add`
(the stub code is not in the sources): it puts the request on the wire
unconditionally, with no local check of any argument, and returns the
remote outcome unchanged. The result pairs the requests sent with the
outcome of the call. -/
def clientAdd (srv : Server) (req : AddRequest) :
    List Request × Except Exc Document :=
  ([Request.add req], srv.onAdd req)

theorem mainTrace_allOk (srv : Server) (h : allOk srv) :
    (mainTrace srv).channels = [serverAddress] ∧
    (mainTrace srv).sent = fixedRequests ∧
    (mainTrace srv).closed = true ∧
    (mainTrace srv).exc = none := by
  obtain ⟨⟨d1, h1⟩, ⟨d2, h2⟩, ⟨r3, h3⟩, ⟨r4, h4⟩, ⟨r5, h5⟩⟩ := h
  simp only [mainTrace, h1, h2, h3, h4, h5]
  exact ⟨trivial, trivial, trivial, trivial⟩

theorem mainTrace_sent_cases (srv : Server) :
    (mainTrace srv).sent = fixedRequests.take 1 ∨
    (mainTrace srv).sent = fixedRequests.take 2 ∨
    (mainTrace srv).sent = fixedRequests.take 3 ∨
    (mainTrace srv).sent = fixedRequests.take 4 ∨
    (mainTrace srv).sent = fixedRequests := by
  rcases h1 : srv.onAdd addReq with e1 | d1
  · exact Or.inl (by simp [mainTrace, h1, fixedRequests])
  rcases h2 : srv.onGet getReq with e2 | d2
  · exact Or.inr (Or.inl (by simp [mainTrace, h1, h2, fixedRequests]))
  rcases h3 : srv.onSearch searchReq with e3 | r3
  · exact Or.inr (Or.inr (Or.inl (by simp [mainTrace, h1, h2, h3, fixedRequests])))
  rcases h4 : srv.onStats statsReq with e4 | r4
  · exact Or.inr (Or.inr (Or.inr (Or.inl
      (by simp [mainTrace, h1, h2, h3, h4, fixedRequests]))))
  rcases h5 : srv.onBackup backupReq with e5 | r5
  · exact Or.inr (Or.inr (Or.inr (Or.inr
      (by simp [mainTrace, h1, h2, h3, h4, h5]))))
  · exact Or.inr (Or.inr (Or.inr (Or.inr
      (by simp [mainTrace, h1, h2, h3, h4, h5]))))

theorem mem_sent_mem_fixed (srv : Server) :
    ∀ q, q ∈ (mainTrace srv).sent → q ∈ fixedRequests := by
  intro q hq
  rcases mainTrace_sent_cases srv with h | h | h | h | h <;> rw [h] at hq
  · exact List.take_subset 1 fixedRequests hq
  · exact List.take_subset 2 fixedRequests hq
  · exact List.take_subset 3 fixedRequests hq
  · exact List.take_subset 4 fixedRequests hq
  · exact hq

theorem okServer_allOk : allOk okServer :=
  ⟨⟨sampleDoc, rfl⟩, ⟨sampleDoc, rfl⟩, ⟨⟨[sampleDoc]⟩, rfl⟩,
   ⟨sampleStats, rfl⟩, ⟨⟨"python-backup.db"⟩, rfl⟩⟩

theorem okServer2_allOk : allOk okServer2 :=
  ⟨⟨sampleDoc, rfl⟩, ⟨{ sampleDoc with content_md := "different body" }, rfl⟩,
   ⟨⟨[sampleDoc]⟩, rfl⟩, ⟨sampleStats, rfl⟩, ⟨⟨"python-backup.db"⟩, rfl⟩⟩

/-- C1: if one of the five remote operations raises an exception, the
exception does not propagate out of the script: the except clauses of
the guard always catch it; a grpc.RpcError is handled by the RpcError
clause, which prints its status code and details, and any other
exception by the generic clause, which prints its message. -/
theorem c1_no_exception_escapes (srv : Server) (e : Exc)
    (h : (mainTrace srv).exc = some e) :
    (script srv).2 ≠ none ∧
    (∀ c d, e = Exc.rpcError c d →
      (script srv).2 =
        some (Handler.rpcHandler, "❌ gRPC Error: " ++ c ++ " - " ++ d)) ∧
    (∀ m, e = Exc.other m →
      (script srv).2 = some (Handler.excHandler, "❌ Error: " ++ m)) := by
  have hs : (script srv).2 = dispatchExc handlerOrder e := by
    simp only [script]
    rw [h]
  rw [hs]
  refine ⟨?_, ?_, ?_⟩
  · cases e <;> simp [dispatchExc, handlerOrder, runHandler]
  · intro c d he
    subst he
    rfl
  · intro m he
    subst he
    rfl

/-- Witness for C1 at a concrete server whose Add call raises an
RpcError. -/
theorem c1_witness :
    (mainTrace badAddServer).exc =
      some (Exc.rpcError "UNAVAILABLE" "failed to connect") ∧
    (script badAddServer).2 =
      some (Handler.rpcHandler,
        "❌ gRPC Error: " ++ "UNAVAILABLE" ++ " - " ++ "failed to connect") :=
  ⟨rfl, (c1_no_exception_escapes badAddServer
      (Exc.rpcError "UNAVAILABLE" "failed to connect") rfl).2.1
      "UNAVAILABLE" "failed to connect" rfl⟩

/-- C2: a successful run opens exactly one channel, to the fixed
address "localhost:11024", and sends exactly the five requests Add,
Get, Search, Stats, Backup over it, in that order, each exactly once
and with no retry. -/
theorem c2_five_calls_in_order (srv : Server) (h : allOk srv) :
    (mainTrace srv).channels = [serverAddress] ∧
    serverAddress = "localhost:11024" ∧
    (mainTrace srv).sent = fixedRequests ∧
    fixedRequests =
      [Request.add addReq, Request.get getReq, Request.search searchReq,
       Request.stats statsReq, Request.backup backupReq] ∧
    fixedRequests.Nodup := by
  obtain ⟨hch, hsent, -, -⟩ := mainTrace_allOk srv h
  exact ⟨hch, rfl, hsent, rfl, by decide⟩

/-- Witness for C2 at a concrete all-success server. -/
theorem c2_witness :
    allOk okServer ∧ (mainTrace okServer).sent = fixedRequests :=
  ⟨okServer_allOk, (c2_five_calls_in_order okServer okServer_allOk).2.2.1⟩

/-- C3 counterexample: on a run where the Add call raises, the
exception aborts `main()` before `channel.close()` is reached, so the
channel is not closed at the end of the script; the claim that the
channel is closed on every run is therefore false. -/
theorem c3_counterexample :
    (mainTrace badAddServer).exc =
      some (Exc.rpcError "UNAVAILABLE" "failed to connect") ∧
    (mainTrace badAddServer).closed = false :=
  ⟨rfl, rfl⟩

/-- C3 amended: the channel is closed at the end of the script
exactly when every remote call succeeds; when some call raises an
exception, `main()` is aborted before `channel.close()` and the
channel is left unclosed. -/
theorem c3_closed_iff_no_exception (srv : Server) :
    (mainTrace srv).closed = true ↔ (mainTrace srv).exc = none := by
  rcases h1 : srv.onAdd addReq with e1 | d1
  · simp [mainTrace, h1]
  rcases h2 : srv.onGet getReq with e2 | d2
  · simp [mainTrace, h1, h2]
  rcases h3 : srv.onSearch searchReq with e3 | r3
  · simp [mainTrace, h1, h2, h3]
  rcases h4 : srv.onStats statsReq with e4 | r4
  · simp [mainTrace, h1, h2, h3, h4]
  rcases h5 : srv.onBackup backupReq with e5 | r5
  · simp [mainTrace, h1, h2, h3, h4, h5]
  · simp [mainTrace, h1, h2, h3, h4, h5]

/-- C4: the Get client passes the env mapping through verbatim: the
env field of the built GetRequest equals the mapping supplied, with
nothing added, removed or transformed; the script's request carries
exactly the mapping written on line 47, and every Get request the
script sends is that request. -/
theorem c4_env_passed_verbatim (srv : Server) :
    (∀ c k l env, (buildGetRequest c k l env).env = env) ∧
    getReq = buildGetRequest "blog" "python-example" "en_US"
      [("year", "2024"), ("language", "Python")] ∧
    getReq.env = [("year", "2024"), ("language", "Python")] ∧
    (∀ q, Request.get q ∈ (mainTrace srv).sent → q.env = getReq.env) := by
  refine ⟨fun _ _ _ _ => rfl, rfl, rfl, ?_⟩
  intro q hq
  have hmem := mem_sent_mem_fixed srv _ hq
  simp only [fixedRequests, List.mem_cons, List.mem_singleton] at hmem
  rcases hmem with h | h | h | h | h <;> simp_all

/-- C5: the Add client performs no local validation: the request is
always put on the wire whatever its arguments, and the call raises an
error exactly when the remote call errors, returning a document
exactly when the remote call succeeds. -/
theorem c5_add_no_local_check (srv : Server) (req : AddRequest) :
    (clientAdd srv req).1 = [Request.add req] ∧
    (∀ e, (clientAdd srv req).2 = Except.error e ↔
      srv.onAdd req = Except.error e) ∧
    (∀ d, (clientAdd srv req).2 = Except.ok d ↔
      srv.onAdd req = Except.ok d) :=
  ⟨rfl, fun _ => Iff.rfl, fun _ => Iff.rfl⟩

/-- C6: the Search request carries exactly the fields collection,
filter_meta, sort, asc and limit, with the script's constants; the
Stats request carries no fields (any two Stats requests are equal);
and these are the messages the script actually sends. -/
theorem c6_request_fields (srv : Server) :
    searchReq = SearchRequest.mk "blog"
      [("category", MetaValues.mk ["tutorial"])] "updatedAt" false 10 ∧
    statsReq = StatsRequest.mk ∧
    (∀ r : StatsRequest, r = statsReq) ∧
    (∀ q, Request.search q ∈ (mainTrace srv).sent → q = searchReq) ∧
    (∀ q, Request.stats q ∈ (mainTrace srv).sent → q = statsReq) := by
  refine ⟨rfl, rfl, fun r => by cases r; rfl, ?_, ?_⟩
  · intro q hq
    have hmem := mem_sent_mem_fixed srv _ hq
    simp only [fixedRequests, List.mem_cons, List.mem_singleton] at hmem
    rcases hmem with h | h | h | h | h <;> simp_all
  · intro q hq
    have hmem := mem_sent_mem_fixed srv _ hq
    simp only [fixedRequests, List.mem_cons, List.mem_singleton] at hmem
    rcases hmem with h | h | h | h | h <;> simp_all

/-- C7: each call is independent of previous responses: the requests
are built from constants of the script alone, so any two runs in
which the server answers every call (with arbitrary, possibly
different responses) send the identical sequence of request messages,
namely the fixed five. -/
theorem c7_requests_independent (srv1 srv2 : Server)
    (h1 : allOk srv1) (h2 : allOk srv2) :
    (mainTrace srv1).sent = (mainTrace srv2).sent ∧
    (mainTrace srv1).sent = fixedRequests := by
  obtain ⟨-, hs1, -, -⟩ := mainTrace_allOk srv1 h1
  obtain ⟨-, hs2, -, -⟩ := mainTrace_allOk srv2 h2
  exact ⟨hs1.trans hs2.symm, hs1⟩

/-- Witness for C7: two concrete servers returning different Get
responses produce the same request sequence. -/
theorem c7_witness :
    okServer.onGet getReq = Except.ok sampleDoc ∧
    okServer2.onGet getReq =
      Except.ok { sampleDoc with content_md := "different body" } ∧
    sampleDoc ≠ { sampleDoc with content_md := "different body" } ∧
    (mainTrace okServer).sent = (mainTrace okServer2).sent :=
  ⟨rfl, rfl, by decide,
   (c7_requests_independent okServer okServer2 okServer_allOk okServer2_allOk).1⟩

/-- C8: a raised exception aborts the remaining calls: if the call at
some position of the sequence Add, Get, Search, Stats, Backup raises,
none of the later operations is attempted, so the sent requests are
exactly the prefix of the fixed five ending at the failing call. -/
theorem c8_failure_stops_sequence (srv : Server) :
    (∀ e, srv.onAdd addReq = Except.error e →
      (mainTrace srv).sent = [Request.add addReq]) ∧
    (∀ d1 e, srv.onAdd addReq = Except.ok d1 →
      srv.onGet getReq = Except.error e →
      (mainTrace srv).sent = [Request.add addReq, Request.get getReq]) ∧
    (∀ d1 d2 e, srv.onAdd addReq = Except.ok d1 →
      srv.onGet getReq = Except.ok d2 →
      srv.onSearch searchReq = Except.error e →
      (mainTrace srv).sent =
        [Request.add addReq, Request.get getReq, Request.search searchReq]) ∧
    (∀ d1 d2 r3 e, srv.onAdd addReq = Except.ok d1 →
      srv.onGet getReq = Except.ok d2 →
      srv.onSearch searchReq = Except.ok r3 →
      srv.onStats statsReq = Except.error e →
      (mainTrace srv).sent =
        [Request.add addReq, Request.get getReq, Request.search searchReq,
         Request.stats statsReq]) ∧
    (∀ d1 d2 r3 r4 e, srv.onAdd addReq = Except.ok d1 →
      srv.onGet getReq = Except.ok d2 →
      srv.onSearch searchReq = Except.ok r3 →
      srv.onStats statsReq = Except.ok r4 →
      srv.onBackup backupReq = Except.error e →
      (mainTrace srv).sent = fixedRequests ∧
      (mainTrace srv).exc = some e) := by
  refine ⟨?_, ?_, ?_, ?_, ?_⟩
  · intro e h1
    simp [mainTrace, h1]
  · intro d1 e h1 h2
    simp [mainTrace, h1, h2]
  · intro d1 d2 e h1 h2 h3
    simp [mainTrace, h1, h2, h3]
  · intro d1 d2 r3 e h1 h2 h3 h4
    simp [mainTrace, h1, h2, h3, h4]
  · intro d1 d2 r3 r4 e h1 h2 h3 h4 h5
    simp [mainTrace, h1, h2, h3, h4, h5]

/-- Witness for C8: on a server whose Add call raises, only the Add
request is sent. -/
theorem c8_witness :
    (mainTrace badAddServer).sent = [Request.add addReq] :=
  (c8_failure_stops_sequence badAddServer).1
    (Exc.rpcError "UNAVAILABLE" "failed to connect") rfl

/-- C9: an RpcError raised during the run is always taken by the
dedicated RpcError clause, which comes first in the guard, and never
by the generic clause, even though the generic clause also matches an
RpcError. -/
theorem c9_rpc_handler_first (c d : String) :
    (runHandler Handler.excHandler (Exc.rpcError c d)).isSome = true ∧
    dispatchExc handlerOrder (Exc.rpcError c d) =
      some (Handler.rpcHandler, "❌ gRPC Error: " ++ c ++ " - " ++ d) ∧
    (∀ s, dispatchExc handlerOrder (Exc.rpcError c d) ≠
      some (Handler.excHandler, s)) := by
  refine ⟨rfl, rfl, ?_⟩
  intro s hs
  simp [dispatchExc, handlerOrder, runHandler] at hs

/-- C10: the content preview slice on line 50 is total: it yields at
most 50 characters for every string, and returns the whole string
whenever the string has at most 50 characters (in particular for the
empty string). -/
theorem c10_preview_slice_total (s : String) :
    (pySliceTo s 50).length = min 50 s.length ∧
    (s.length ≤ 50 → pySliceTo s 50 = s) := by
  constructor
  · cases s with
    | mk data => exact List.length_take 50 data
  · intro h
    cases s with
    | mk data => exact congrArg String.mk (List.take_of_length_le h)

/-- Witness for C10 at the empty string and a short string. -/
theorem c10_witness :
    ("".length ≤ 50 ∧ pySliceTo "" 50 = "") ∧ pySliceTo "abc" 50 = "abc" :=
  ⟨⟨by decide, (c10_preview_slice_total "").2 (by decide)⟩,
   (c10_preview_slice_total "abc").2 (by decide)⟩
